import Mathlib

set_option maxRecDepth 8192

/-!
Verification of the Neotron-Common-BIOS value-representation layer.

This file shallowly embeds the parts of the crate that the verified
properties speak about: the packed video-mode descriptor and its derived
quantities (`src/video.rs`), the packed semantic version (`src/version.rs`),
and the FFI-safe error/result/option wrappers (`src/types.rs`).

Machine integers are modelled as `Nat`; every operation in the source
stays within its machine width (shown where relevant), so no `% 2^w`
reduction is needed except where the source itself truncates with a cast,
in which case the truncation is written explicitly.
-/

namespace Neotron

/-- Describes the timing of the video signal (`Timing` in `src/video.rs`,
with explicit discriminants 0, 1, 2). -/
inductive Timing
  | T640x480
  | T640x400
  | T800x600
deriving DecidableEq, Fintype, Repr

/-- The explicit discriminant of each `Timing` variant (`timing as u8`). -/
def Timing.toU8 : Timing → Nat
  | .T640x480 => 0
  | .T640x400 => 1
  | .T800x600 => 2

/-- Describes the format of the video memory (`Format` in `src/video.rs`,
declared through `make_ffi_enum` which assigns discriminants in declaration
order 0..7; this agrees with the decode table in `Mode::format`). -/
inductive Format
  | Text8x16
  | Text8x8
  | Chunky32
  | Chunky16
  | Chunky8
  | Chunky4
  | Chunky2
  | Chunky1
deriving DecidableEq, Fintype, Repr

/-- The discriminant of each `Format` variant (`format as u8`). -/
def Format.toU8 : Format → Nat
  | .Text8x16 => 0
  | .Text8x8 => 1
  | .Chunky32 => 2
  | .Chunky16 => 3
  | .Chunky8 => 4
  | .Chunky4 => 5
  | .Chunky2 => 6
  | .Chunky1 => 7

/-- Describes how a video mode is scaled (`Scaling` in `src/video.rs`). -/
inductive Scaling
  | None
  | DoubleWidth
  | DoubleHeight
  | DoubleWidthAndHeight
deriving DecidableEq, Fintype, Repr

/-- Does this scaling double the width (set the `Horiz 2x` bit in
`Mode::new_with_scaling`)? -/
def Scaling.doublesWidth : Scaling → Bool
  | .DoubleWidth => true
  | .DoubleWidthAndHeight => true
  | _ => false

/-- Does this scaling double the height (set the `Vert 2x` bit in
`Mode::new_with_scaling`)? -/
def Scaling.doublesHeight : Scaling → Bool
  | .DoubleHeight => true
  | .DoubleWidthAndHeight => true
  | _ => false

/-- Describes a video mode: `pub struct Mode(u8)` in `src/video.rs`.
The wrapped byte is modelled as a `Nat`; every constructor in the source
produces a value below 256. -/
structure Mode where
  val : Nat
deriving DecidableEq, Repr

namespace Mode

/-- `Mode::VERT_2X_SHIFT`. -/
def VERT_2X_SHIFT : Nat := 7
/-- `Mode::TIMING_SHIFT`. -/
def TIMING_SHIFT : Nat := 4
/-- `Mode::HORIZ_2X_SHIFT`. -/
def HORIZ_2X_SHIFT : Nat := 3
/-- `Mode::FORMAT_SHIFT`. -/
def FORMAT_SHIFT : Nat := 0

/-- `Mode::new_with_scaling`. -/
def new_with_scaling (timing : Timing) (format : Format) (scaling : Scaling) : Mode :=
  let t := timing.toU8
  let f := format.toU8
  let mode := (t <<< TIMING_SHIFT) ||| (f <<< FORMAT_SHIFT)
  let mode :=
    match scaling with
    | .None => mode
    | .DoubleWidth => mode ||| (1 <<< HORIZ_2X_SHIFT)
    | .DoubleHeight => mode ||| (1 <<< VERT_2X_SHIFT)
    | .DoubleWidthAndHeight =>
        mode ||| (1 <<< HORIZ_2X_SHIFT) ||| (1 <<< VERT_2X_SHIFT)
  Mode.mk mode

/-- `Mode::new` (no scaling). -/
def new (timing : Timing) (format : Format) : Mode :=
  new_with_scaling timing format .None

/-- `Mode::is_vert_2x`. -/
def is_vert_2x (m : Mode) : Bool :=
  (m.val &&& (1 <<< VERT_2X_SHIFT)) != 0

/-- `Mode::is_horiz_2x`. -/
def is_horiz_2x (m : Mode) : Bool :=
  (m.val &&& (1 <<< HORIZ_2X_SHIFT)) != 0

/-- `Mode::format`. The final arm models the `unreachable!()` branch: the
scrutinee is masked to three bits, so it is below 8 and that arm is never
taken. -/
def format (m : Mode) : Format :=
  match (m.val >>> FORMAT_SHIFT) &&& 0b111 with
  | 0 => .Text8x16
  | 1 => .Text8x8
  | 2 => .Chunky32
  | 3 => .Chunky16
  | 4 => .Chunky8
  | 5 => .Chunky4
  | 6 => .Chunky2
  | 7 => .Chunky1
  | _ => .Chunky1

/-- `Mode::timing`. The final arm models the `unreachable!()` branch of the
source; every mode built by the constructors, and every byte accepted by
`try_from_u8`, has a timing field in 0..=2, so no theorem below exercises
that arm. -/
def timing (m : Mode) : Timing :=
  match (m.val >>> TIMING_SHIFT) &&& 0b111 with
  | 0 => .T640x480
  | 1 => .T640x400
  | 2 => .T800x600
  | _ => .T640x480

/-- `Mode::horizontal_pixels`. -/
def horizontal_pixels (m : Mode) : Nat :=
  match m.timing, m.is_horiz_2x with
  | .T640x480, false => 640
  | .T640x400, false => 640
  | .T800x600, false => 800
  | .T640x480, true => 320
  | .T640x400, true => 320
  | .T800x600, true => 400

/-- `Mode::vertical_lines`. -/
def vertical_lines (m : Mode) : Nat :=
  match m.timing, m.is_vert_2x with
  | .T640x480, false => 480
  | .T640x400, false => 400
  | .T800x600, false => 600
  | .T640x480, true => 240
  | .T640x400, true => 200
  | .T800x600, true => 300

/-- `Mode::line_size_bytes` (Rust `usize` division is truncating, as is
`Nat` division). -/
def line_size_bytes (m : Mode) : Nat :=
  let horizontal_pixels := m.horizontal_pixels
  match m.format with
  | .Text8x8 | .Text8x16 => (horizontal_pixels / 8) * 2
  | .Chunky32 => horizontal_pixels * 4
  | .Chunky16 => horizontal_pixels * 2
  | .Chunky8 => horizontal_pixels
  | .Chunky4 => horizontal_pixels / 2
  | .Chunky2 => horizontal_pixels / 4
  | .Chunky1 => horizontal_pixels / 8

/-- `Mode::frame_size_bytes`. -/
def frame_size_bytes (m : Mode) : Nat :=
  let line_size := m.line_size_bytes
  let num_lines := m.vertical_lines /
    match m.format with
    | .Text8x8 => 8
    | .Text8x16 => 16
    | _ => 1
  line_size * num_lines

/-- `Mode::as_u8`. -/
def as_u8 (m : Mode) : Nat := m.val

/-- `Mode::try_from_u8`: the timing field must be in `0..=2`. -/
def try_from_u8 (mode_value : Nat) : Option Mode :=
  if (mode_value >>> TIMING_SHIFT) &&& 0b111 ≤ 2 then
    some (Mode.mk mode_value)
  else
    none

end Mode

/-- Describes a semantic version: `pub struct Version(pub u32)` in
`src/version.rs`. The derived `PartialOrd`/`Ord` compare the packed 32-bit
value, i.e. the wrapped `Nat` here. -/
structure Version where
  val : Nat
deriving DecidableEq, Repr

namespace Version

/-- `Version::new`: `u32::from_be_bytes([0x00, major, minor, patch])`, i.e.
big-endian byte concatenation `major·2^16 + minor·2^8 + patch`. The
arguments are `u8` in the source, so they are below 256 wherever the
function is applied. -/
def new (major minor patch : Nat) : Version :=
  Version.mk (major * 65536 + minor * 256 + patch)

/-- `Version::major`: `(self.0 >> 16) as u8` (the cast truncates to a byte). -/
def major (v : Version) : Nat :=
  (v.val >>> 16) % 256

/-- `Version::minor`: `(self.0 >> 8) as u8`. -/
def minor (v : Version) : Nat :=
  (v.val >>> 8) % 256

/-- `Version::patch`: `self.0 as u8`. -/
def patch (v : Version) : Nat :=
  v.val % 256

/-- The strict order derived on the packed `u32` value. -/
def lt (a b : Version) : Prop :=
  a.val < b.val

instance : Decidable (Version.lt a b) := by
  unfold Version.lt
  infer_instance

end Version

namespace types

/-- The API error type: `pub enum Error` in `src/types.rs`. The `u16`
payloads are modelled as `Nat`. -/
inductive Error
  | InvalidDevice
  | Unimplemented
  | DeviceError (code : Nat)
  | UnsupportedConfiguration (code : Nat)
deriving DecidableEq, Repr

/-- The constructor ("kind") of an API error, with the numeric payloads
forgotten; one variant per variant of `Error`. -/
inductive ErrorKind
  | InvalidDevice
  | Unimplemented
  | DeviceError
  | UnsupportedConfiguration
deriving DecidableEq, Fintype, Repr

/-- Maps each `Error` to its kind. -/
def Error.kind : Error → ErrorKind
  | .InvalidDevice => .InvalidDevice
  | .Unimplemented => .Unimplemented
  | .DeviceError _ => .DeviceError
  | .UnsupportedConfiguration _ => .UnsupportedConfiguration

/-- The output of the derived `Debug` formatting for `Error`, as
interpolated by the `panic!` in `Result::unwrap`. -/
def Error.debugFormat : Error → String
  | .InvalidDevice => "InvalidDevice"
  | .Unimplemented => "Unimplemented"
  | .DeviceError c => "DeviceError(" ++ toString c ++ ")"
  | .UnsupportedConfiguration c => "UnsupportedConfiguration(" ++ toString c ++ ")"

/-- The FFI-safe result type: `pub enum Result<T>` in `src/types.rs`. -/
inductive Result (T : Type)
  | Ok (v : T)
  | Err (e : Error)

/-- The FFI-safe option type: `pub enum Option<T>` in `src/types.rs`. -/
inductive Option (T : Type)
  | Some (v : T)
  | None

/-- `Result::unwrap`. The `panic!("Unwrap called, got err {:?}", e)` is
modelled as `Except.error` carrying the panic message: the call aborts with
that message instead of returning a value. -/
def Result.unwrap {T : Type} : Result T → Except String T
  | .Ok val => .ok val
  | .Err e => .error ("Unwrap called, got err " ++ e.debugFormat)

/-- `Option::unwrap`. The `panic!("Unwrap called on empty option")` is
modelled as `Except.error` carrying the panic message. -/
def Option.unwrap {T : Type} : Option T → Except String T
  | .Some val => .ok val
  | .None => .error "Unwrap called on empty option"

end types

/-- Text-mode foreground colour (`TextForegroundColour` in `src/video.rs`,
declared through `make_ffi_enum`, discriminants 0..15 in declaration
order). -/
inductive TextForegroundColour
  | Black
  | Blue
  | Green
  | Cyan
  | Red
  | Magenta
  | Brown
  | LightGray
  | DarkGray
  | LightBlue
  | LightGreen
  | LightCyan
  | LightRed
  | Pink
  | Yellow
  | White
deriving DecidableEq, Fintype, Repr

/-- The discriminant of each `TextForegroundColour` variant (`fg as u8`). -/
def TextForegroundColour.toU8 : TextForegroundColour → Nat
  | .Black => 0
  | .Blue => 1
  | .Green => 2
  | .Cyan => 3
  | .Red => 4
  | .Magenta => 5
  | .Brown => 6
  | .LightGray => 7
  | .DarkGray => 8
  | .LightBlue => 9
  | .LightGreen => 10
  | .LightCyan => 11
  | .LightRed => 12
  | .Pink => 13
  | .Yellow => 14
  | .White => 15

/-- Text-mode background colour (`TextBackgroundColour` in `src/video.rs`,
declared through `make_ffi_enum`, discriminants 0..7 in declaration
order). -/
inductive TextBackgroundColour
  | Black
  | Blue
  | Green
  | Cyan
  | Red
  | Magenta
  | Brown
  | LightGray
deriving DecidableEq, Fintype, Repr

/-- The discriminant of each `TextBackgroundColour` variant (`bg as u8`). -/
def TextBackgroundColour.toU8 : TextBackgroundColour → Nat
  | .Black => 0
  | .Blue => 1
  | .Green => 2
  | .Cyan => 3
  | .Red => 4
  | .Magenta => 5
  | .Brown => 6
  | .LightGray => 7

/-- Modelled from the spec: `FfiTextForegroundColour::make_safe` is
generated by the `make_ffi_enum!` macro, whose definition is not under
`src/`. Per the spec's enumerated-value codec contract, decoding maps each
integer in `[0, N)` to the variant with that discriminant and fails on any
other integer. -/
def FfiTextForegroundColour.make_safe (raw : Nat) : Except Unit TextForegroundColour :=
  match raw with
  | 0 => .ok .Black
  | 1 => .ok .Blue
  | 2 => .ok .Green
  | 3 => .ok .Cyan
  | 4 => .ok .Red
  | 5 => .ok .Magenta
  | 6 => .ok .Brown
  | 7 => .ok .LightGray
  | 8 => .ok .DarkGray
  | 9 => .ok .LightBlue
  | 10 => .ok .LightGreen
  | 11 => .ok .LightCyan
  | 12 => .ok .LightRed
  | 13 => .ok .Pink
  | 14 => .ok .Yellow
  | 15 => .ok .White
  | _ => .error ()

/-- Modelled from the spec: `FfiTextBackgroundColour::make_safe`, generated
by the `make_ffi_enum!` macro (not under `src/`); decodes integers in
`[0, 8)` to the corresponding variant and fails otherwise. -/
def FfiTextBackgroundColour.make_safe (raw : Nat) : Except Unit TextBackgroundColour :=
  match raw with
  | 0 => .ok .Black
  | 1 => .ok .Blue
  | 2 => .ok .Green
  | 3 => .ok .Cyan
  | 4 => .ok .Red
  | 5 => .ok .Magenta
  | 6 => .ok .Brown
  | 7 => .ok .LightGray
  | _ => .error ()

/-- VGA foreground/background attribute: `pub struct Attr(pub u8)` in
`src/video.rs`. -/
structure Attr where
  val : Nat
deriving DecidableEq, Repr

namespace Attr

/-- `Attr::new`. -/
def new (fg : TextForegroundColour) (bg : TextBackgroundColour) (blink : Bool) : Attr :=
  let fg := fg.toU8 &&& 0b1111
  let bg := (bg.toU8 &&& 0b111) <<< 4
  let blink := if blink then 1 <<< 7 else 0
  let value := blink ||| bg ||| fg
  Attr.mk value

/-- `Attr::fg`; the `panic!("Failed conversion")` branch is modelled as
`Except.error` carrying the panic message. -/
def fg (a : Attr) : Except String TextForegroundColour :=
  match FfiTextForegroundColour.make_safe (a.val &&& 0x0F) with
  | .ok v => .ok v
  | .error _ => .error "Failed conversion"

/-- `Attr::bg`; the `panic!("Failed conversion")` branch is modelled as
`Except.error` carrying the panic message. -/
def bg (a : Attr) : Except String TextBackgroundColour :=
  match FfiTextBackgroundColour.make_safe ((a.val >>> 4) &&& 0x07) with
  | .ok v => .ok v
  | .error _ => .error "Failed conversion"

/-- `Attr::blink`. -/
def blink (a : Attr) : Bool :=
  (a.val &&& 0x80) != 0

end Attr

end Neotron

namespace Neotron

/-- The glyph cell height the frame-size computation divides by: 16 for
`Text8x16`, 8 for `Text8x8`, 1 for every graphics format (the `match` inside
`Mode::frame_size_bytes`). -/
def Format.glyphCellHeight : Format → Nat
  | .Text8x16 => 16
  | .Text8x8 => 8
  | _ => 1

/-- C1: for every timing, format and scaling, the mode built by
`Mode::new_with_scaling` decodes back to the same timing and format, its
`is_horiz_2x`/`is_vert_2x` flags agree with whether the scaling doubles
width/height, and `Mode::try_from_u8 ∘ Mode::as_u8` returns the same mode. -/
theorem mode_new_with_scaling_roundtrip :
    ∀ (timing : Timing) (format : Format) (scaling : Scaling),
      (Mode.new_with_scaling timing format scaling).timing = timing ∧
      (Mode.new_with_scaling timing format scaling).format = format ∧
      (Mode.new_with_scaling timing format scaling).is_horiz_2x = scaling.doublesWidth ∧
      (Mode.new_with_scaling timing format scaling).is_vert_2x = scaling.doublesHeight ∧
      Mode.try_from_u8 (Mode.new_with_scaling timing format scaling).as_u8 =
        some (Mode.new_with_scaling timing format scaling) := by
  decide

/-- C2 counterexample: for the mode (T800x600, Text8x16, no scaling) the
frame size computed by the code is 7400, which is NOT bytes-per-line (200)
times visible height (600) divided by glyph cell height (16) — that quotient
is 7500 — and the division 600 / 16 is not exact. -/
theorem frame_size_exact_division_counterexample :
    (Mode.new_with_scaling .T800x600 .Text8x16 .None).frame_size_bytes = 7400 ∧
    (Mode.new_with_scaling .T800x600 .Text8x16 .None).frame_size_bytes ≠
      (Mode.new_with_scaling .T800x600 .Text8x16 .None).line_size_bytes *
        (Mode.new_with_scaling .T800x600 .Text8x16 .None).vertical_lines / 16 ∧
    ¬ (16 ∣ (Mode.new_with_scaling .T800x600 .Text8x16 .None).vertical_lines) := by
  decide

/-- C2 (amended): for every constructible mode, `frame_size_bytes` equals
bytes-per-line multiplied by the TRUNCATING integer quotient of the visible
height by the glyph cell height of the format (16 for Text8x16, 8 for
Text8x8, 1 for graphics formats); the quotient is rounded down when the
height is not a multiple of the cell height. -/
theorem frame_size_bytes_eq_line_times_rows :
    ∀ (timing : Timing) (format : Format) (scaling : Scaling),
      (Mode.new_with_scaling timing format scaling).frame_size_bytes =
        (Mode.new_with_scaling timing format scaling).line_size_bytes *
          ((Mode.new_with_scaling timing format scaling).vertical_lines /
            format.glyphCellHeight) := by
  decide

/-- C3: `Mode::try_from_u8` returns `None` exactly when the timing bit-field
(bits 6-4) of the byte is in 3..=7, and returns `Some` exactly when it is in
0..=2. -/
theorem try_from_u8_timing_validation :
    ∀ b : Fin 256,
      (Mode.try_from_u8 b.val = none ↔ 3 ≤ (b.val >>> Mode.TIMING_SHIFT) &&& 0b111) ∧
      ((Mode.try_from_u8 b.val).isSome = true ↔
        (b.val >>> Mode.TIMING_SHIFT) &&& 0b111 ≤ 2) := by
  decide

/-- C5: the byte produced by `Mode::new_with_scaling` has bit 7 = the
vertical-double flag, bits 6-4 = the timing index, bit 3 = the
horizontal-double flag, and bits 2-0 = the format index. -/
theorem mode_byte_layout :
    ∀ (timing : Timing) (format : Format) (scaling : Scaling),
      ((Mode.new_with_scaling timing format scaling).as_u8.testBit 7 =
        scaling.doublesHeight) ∧
      ((Mode.new_with_scaling timing format scaling).as_u8 >>> 4) &&& 0b111 =
        timing.toU8 ∧
      ((Mode.new_with_scaling timing format scaling).as_u8.testBit 3 =
        scaling.doublesWidth) ∧
      (Mode.new_with_scaling timing format scaling).as_u8 &&& 0b111 =
        format.toU8 := by
  decide

/-- C6: the three regression fixtures: (T640x480, Text8x16, none) has frame
size 4800, (T640x480, Chunky8, none) has frame size 307200, and (T800x600,
Chunky1, double width and height) has frame size 15000. -/
theorem frame_size_fixtures :
    (Mode.new_with_scaling .T640x480 .Text8x16 .None).frame_size_bytes = 4800 ∧
    (Mode.new_with_scaling .T640x480 .Chunky8 .None).frame_size_bytes = 307200 ∧
    (Mode.new_with_scaling .T800x600 .Chunky1 .DoubleWidthAndHeight).frame_size_bytes
      = 15000 := by
  decide

/-- C10: every byte accepted by `Mode::try_from_u8` decodes to a mode whose
frame size in bytes is a multiple of four. -/
theorem frame_size_bytes_multiple_of_four :
    ∀ b : Fin 256,
      (Mode.try_from_u8 b.val).all (fun m => m.frame_size_bytes % 4 == 0) = true := by
  decide

/-- C4: packing an 8-bit (major, minor, patch) triple with `Version::new`
and unpacking with `major`/`minor`/`patch` is the identity; the derived
order on the packed 32-bit value agrees with lexicographic order on the
triple, major most significant; and 1.0.0 > 0.9.9 > 0.9.0. -/
theorem version_pack_unpack_order :
    ∀ (ma mi pa ma2 mi2 pa2 : Fin 256),
      ((Version.new ma.val mi.val pa.val).major = ma.val ∧
        (Version.new ma.val mi.val pa.val).minor = mi.val ∧
        (Version.new ma.val mi.val pa.val).patch = pa.val) ∧
      ((Version.new ma.val mi.val pa.val).lt (Version.new ma2.val mi2.val pa2.val) ↔
        (ma.val < ma2.val ∨ (ma.val = ma2.val ∧
          (mi.val < mi2.val ∨ (mi.val = mi2.val ∧ pa.val < pa2.val))))) ∧
      ((Version.new 0 9 9).lt (Version.new 1 0 0) ∧
        (Version.new 0 9 0).lt (Version.new 0 9 9)) := by
  intro ma mi pa ma2 mi2 pa2
  obtain ⟨ma, hma⟩ := ma
  obtain ⟨mi, hmi⟩ := mi
  obtain ⟨pa, hpa⟩ := pa
  obtain ⟨ma2, hma2⟩ := ma2
  obtain ⟨mi2, hmi2⟩ := mi2
  obtain ⟨pa2, hpa2⟩ := pa2
  simp only [Version.new, Version.major, Version.minor, Version.patch, Version.lt,
    Nat.shiftRight_eq_div_pow]
  norm_num
  omega

/-- C7 counterexample: the API error type does not have six kinds — its
constructor set has cardinality four. -/
theorem error_kind_count_ne_six :
    Fintype.card types.ErrorKind ≠ 6 := by
  decide

/-- C7 (amended): the API error type is a closed enumeration of exactly
FOUR kinds — invalid device identifier, operation not implemented,
hardware-reported failure with a numeric code, and unsupported
configuration with a numeric code — and every error value falls under one
of them. -/
theorem error_kind_count_four :
    Fintype.card types.ErrorKind = 4 ∧ Function.Surjective types.Error.kind := by
  refine ⟨by decide, ?_⟩
  intro k
  cases k
  · exact ⟨.InvalidDevice, rfl⟩
  · exact ⟨.Unimplemented, rfl⟩
  · exact ⟨.DeviceError 0, rfl⟩
  · exact ⟨.UnsupportedConfiguration 0, rfl⟩

/-- C8: `Result::Ok(v).unwrap()` and `Option::Some(v).unwrap()` return `v`;
`Result::Err(e).unwrap()` and `Option::None.unwrap()` abort (modelled as
`Except.error`) with their descriptive panic messages instead of returning
a value. -/
theorem unwrap_ok_and_panic :
    ∀ (T : Type) (v : T) (e : types.Error),
      (types.Result.Ok v).unwrap = Except.ok v ∧
      (types.Option.Some v).unwrap = Except.ok v ∧
      (types.Result.Err e : types.Result T).unwrap =
        Except.error ("Unwrap called, got err " ++ e.debugFormat) ∧
      (types.Option.None : types.Option T).unwrap =
        Except.error "Unwrap called on empty option" :=
  fun _ _ _ => ⟨rfl, rfl, rfl, rfl⟩

/-- C9: for every attribute byte, `Attr::fg` and `Attr::bg` decode to a
valid colour (the `panic!("Failed conversion")` branch is unreachable), and
`Attr::new` followed by `fg`/`bg`/`blink` returns exactly the constructed
triple. -/
theorem attr_decode_total_and_roundtrip :
    (∀ b : Fin 256,
      (Attr.mk b.val).fg.isOk = true ∧ (Attr.mk b.val).bg.isOk = true) ∧
    (∀ (fg : TextForegroundColour) (bg : TextBackgroundColour) (blink : Bool),
      (Attr.new fg bg blink).fg = Except.ok fg ∧
      (Attr.new fg bg blink).bg = Except.ok bg ∧
      (Attr.new fg bg blink).blink = blink) := by
  refine ⟨by decide, ?_⟩
  intro fg bg blink
  cases blink <;> cases fg <;> cases bg <;> exact ⟨rfl, rfl, rfl⟩

end Neotron
